import Mathlib

/-!
Verification of the feedback clustering and scoring pipeline of the
produckai backend.

The development shallowly embeds the relevant Python modules:

* `packages/shared/scoring.py` — the Theme Scorer.  Python floats are
  modelled as real numbers (`ℝ`); `math.log` becomes `Real.log`.
* `apps/api/scripts/run_clustering.py` — the pipeline driver: priority
  scoring, insight/feedback linking, title deduplication
  (`difflib.SequenceMatcher`), per-theme frequency metrics, and the
  clear-then-rerun transaction structure.
* `apps/api/services/insights.py` — the deterministic fallback severity
  classification and the supporting-feedback snapshot.
* `apps/api/services/clustering.py` — the minimum-feedback short circuit
  of `cluster_embeddings`.

Database rows are modelled as records holding exactly the columns the
verified code reads or writes; SQLAlchemy sessions become explicit state
passing, and a committed transaction boundary becomes a value of the
state type.
-/

/-! ## Theme Scorer (`packages/shared/scoring.py`)

Python floats are embedded as `ℝ`.  `ScoreWeights`, `SegmentPriorities`
and `ThemeScoreComponents` mirror the dataclasses of the module.
-/

/-- Dataclass `ScoreWeights`: configurable weights for ThemeScore components. -/
structure ScoreWeights where
  frequency : ℝ
  acv : ℝ
  sentiment : ℝ
  segment : ℝ
  trend : ℝ
  duplicate : ℝ

/-- Dataclass `SegmentPriorities`: priority multipliers for customer segments. -/
structure SegmentPriorities where
  ENT : ℝ
  MM : ℝ
  SMB : ℝ

/-- Dataclass `ThemeScoreComponents`: individual components of ThemeScore. -/
structure ThemeScoreComponents where
  frequency_norm : ℝ
  acv_norm : ℝ
  sentiment_lift : ℝ
  segment_priority : ℝ
  trend_momentum : ℝ
  dup_penalty : ℝ
  final_score : ℝ

/-- `normalize_min_max(value, min_val, max_val)`: min-max scaling clamped to
the unit interval, returning `0.0` when `max_val == min_val`. -/
noncomputable def normalize_min_max (value min_val max_val : ℝ) : ℝ :=
  if max_val = min_val then 0
  else max 0 (min 1 ((value - min_val) / (max_val - min_val)))

/-- `calculate_frequency_norm(count_30d, count_90d, max_count_30d, max_count_90d)`:
70 percent weight on the 30-day window, 30 percent on the 90-day window,
each normalized against `max(max_count, 1)`. -/
noncomputable def calculate_frequency_norm
    (count_30d count_90d max_count_30d max_count_90d : ℕ) : ℝ :=
  let norm_30d := normalize_min_max (count_30d : ℝ) 0 ((max max_count_30d 1 : ℕ) : ℝ)
  let norm_90d := normalize_min_max (count_90d : ℝ) 0 ((max max_count_90d 1 : ℕ) : ℝ)
  0.7 * norm_30d + 0.3 * norm_90d

/-- `calculate_acv_norm(acv_sum, max_acv_sum)`: log-scaled ACV normalization,
`log(1 + acv_sum) / log(1 + max_acv_sum)`, returning `0.0` when
`max_acv_sum <= 0`. -/
noncomputable def calculate_acv_norm (acv_sum max_acv_sum : ℝ) : ℝ :=
  if max_acv_sum ≤ 0 then 0
  else Real.log (1 + acv_sum) / Real.log (1 + max_acv_sum)

/-- `calculate_sentiment_lift(avg_sentiment)`: clamp-and-invert,
`max(0.0, min(1.0, (1 - avg_sentiment) / 2))`. -/
noncomputable def calculate_sentiment_lift (avg_sentiment : ℝ) : ℝ :=
  max 0 (min 1 ((1 - avg_sentiment) / 2))

/-- Lookup in `priorities.to_dict()` with the default `0.5` used by
`priority_dict.get(seg, 0.5)` in `calculate_segment_priority`. -/
def segPriorityOf (p : SegmentPriorities) (seg : String) : ℝ :=
  if seg = "ENT" then p.ENT
  else if seg = "MM" then p.MM
  else if seg = "SMB" then p.SMB
  else 0.5

/-- Lookup in the `segment_counts` dict with default `0`, as
`segment_counts.get(seg, 0)` does; the dict is embedded as an
association list. -/
def segCountOf (counts : List (String × ℕ)) (seg : String) : ℕ :=
  ((counts.find? (fun kv => kv.1 == seg)).map (·.2)).getD 0

/-- `calculate_segment_priority(segment_counts, priorities)`: weighted
average of segment priorities, `0.0` when the total count is zero.
`total_count` sums every value of the dict, while the weighted sum only
queries the keys ENT, MM, SMB — exactly as the Python comprehension does. -/
noncomputable def calculate_segment_priority
    (segment_counts : List (String × ℕ)) (priorities : SegmentPriorities) : ℝ :=
  let total_count := (segment_counts.map (·.2)).sum
  if total_count = 0 then 0
  else
    (((["ENT", "MM", "SMB"].map
        (fun seg => (segCountOf segment_counts seg : ℝ) * segPriorityOf priorities seg))).sum)
      / (total_count : ℝ)

/-- `calculate_trend_momentum(weekly_counts)`: OLS slope of index versus
count, divided by 20 and clamped to `[-0.5, 0.5]`; `0.0` for fewer than
two weeks or a zero denominator. -/
noncomputable def calculate_trend_momentum (weekly_counts : List ℕ) : ℝ :=
  if weekly_counts.length < 2 then 0
  else
    let n := weekly_counts.length
    let mean_x : ℝ := (((List.range n).map (fun x => (x : ℝ))).sum) / (n : ℝ)
    let mean_y : ℝ := ((weekly_counts.map (fun y => (y : ℝ))).sum) / (n : ℝ)
    let numerator :=
      (((List.range n).zip weekly_counts).map
        (fun p => ((p.1 : ℝ) - mean_x) * ((p.2 : ℝ) - mean_y))).sum
    let denominator := ((List.range n).map (fun x => ((x : ℝ) - mean_x) ^ 2)).sum
    if denominator = 0 then 0
    else max (-0.5) (min 0.5 ((numerator / denominator) / 20))

/-- `calculate_dup_penalty(similarity_to_higher_scored)`: penalty
`0.5 * similarity` when the similarity exceeds `0.85`, else `0.0`. -/
noncomputable def calculate_dup_penalty (similarity_to_higher_scored : ℝ) : ℝ :=
  if 0.85 < similarity_to_higher_scored then 0.5 * similarity_to_higher_scored
  else 0

/-- `calculate_theme_score(...)`: all six components plus the weighted,
clamped final score. -/
noncomputable def calculate_theme_score
    (freq_30d freq_90d : ℕ) (acv_sum avg_sentiment : ℝ)
    (segment_counts : List (String × ℕ)) (weekly_counts : List ℕ)
    (similarity_to_higher : ℝ)
    (max_freq_30d max_freq_90d : ℕ) (max_acv_sum : ℝ)
    (weights : ScoreWeights) (segment_priorities : SegmentPriorities) :
    ThemeScoreComponents :=
  let f_norm := calculate_frequency_norm freq_30d freq_90d max_freq_30d max_freq_90d
  let acv_norm := calculate_acv_norm acv_sum max_acv_sum
  let sent_lift := calculate_sentiment_lift avg_sentiment
  let seg_priority := calculate_segment_priority segment_counts segment_priorities
  let trend := calculate_trend_momentum weekly_counts
  let dup_penalty := calculate_dup_penalty similarity_to_higher
  let final_score :=
    weights.frequency * f_norm + weights.acv * acv_norm
      + weights.sentiment * sent_lift + weights.segment * seg_priority
      + weights.trend * trend - weights.duplicate * dup_penalty
  { frequency_norm := f_norm
    acv_norm := acv_norm
    sentiment_lift := sent_lift
    segment_priority := seg_priority
    trend_momentum := trend
    dup_penalty := dup_penalty
    final_score := max 0 (min 1 final_score) }

/-- The scorer invocation made by `calculate_theme_metrics` in
`run_clustering.py`: the pipeline always passes
`similarity_to_higher=0.0` (marked `TODO` in the source). -/
noncomputable def theme_metrics_components
    (freq_30d freq_90d : ℕ) (acv_sum sentiment : ℝ)
    (segment_counts : List (String × ℕ)) (weekly_counts : List ℕ)
    (max_freq_30d max_freq_90d : ℕ) (max_acv_sum : ℝ)
    (weights : ScoreWeights) (segment_priorities : SegmentPriorities) :
    ThemeScoreComponents :=
  calculate_theme_score freq_30d freq_90d acv_sum sentiment segment_counts
    weekly_counts 0 max_freq_30d max_freq_90d max_acv_sum weights segment_priorities

/-! ## Data rows

Records carrying exactly the columns of the SQLAlchemy models that the
verified code reads or writes.  UUID-valued ids (and account names /
customer ids) are embedded as natural numbers via an arbitrary injection;
`str(uuid)` is injective, so `str(f.id)`-membership tests coincide with
id-membership tests.
-/

/-- The columns of `Feedback` used by the clustering pipeline:
`id`, `text`, `created_at` (modelled in days), nullable `account` and
nullable `customer_id`. -/
structure FeedbackRow where
  id : ℕ
  text : String
  created_at : ℤ
  account : Option String
  customer_id : Option ℕ
deriving DecidableEq, Repr, Inhabited

/-- The columns of `Insight` used by `deduplicate_insights`:
`id`, `title`, `priority_score`. -/
structure InsightRow where
  id : ℕ
  title : String
  priority_score : ℕ
deriving DecidableEq, Repr, Inhabited

/-- The `InsightFeedback` association row: `(insight_id, feedback_id)`
primary key plus `relevance_score` and `is_key_quote`. -/
structure LinkRow where
  insight_id : ℕ
  feedback_id : ℕ
  relevance_score : ℕ
  is_key_quote : ℕ
deriving DecidableEq, Repr, Inhabited

/-! ## Priority score (`run_clustering.py`, `run_clustering`)

For each generated insight the driver computes
`severity_score = {"low": 25, "medium": 50, "high": 75, "critical": 100}.get(severity, 50)`,
`effort_score = {"low": 75, "medium": 50, "high": 25}.get(effort, 50)` and
`priority_score = int((severity_score + effort_score) / 2)`.  Both scores
are non-negative, so Python's `int()` truncation of the float quotient is
exactly natural-number division by 2.
-/

/-- Severity-to-score map with the dict-lookup default `50`. -/
def severity_score (severity : String) : ℕ :=
  if severity = "low" then 25
  else if severity = "medium" then 50
  else if severity = "high" then 75
  else if severity = "critical" then 100
  else 50

/-- Effort-to-score map with the dict-lookup default `50`. -/
def effort_score (effort : String) : ℕ :=
  if effort = "low" then 75
  else if effort = "medium" then 50
  else if effort = "high" then 25
  else 50

/-- `priority_score = int((severity_score + effort_score) / 2)`. -/
def priority_score (severity effort : String) : ℕ :=
  (severity_score severity + effort_score effort) / 2

/-! ## Insight/feedback linking (`run_clustering.py` and `insights.py`)

Both generation paths of `InsightGenerationService` set
`supporting_feedback_ids = [str(f.id) for f in feedback_items]` — the ids
of ALL feedback items of the cluster.  The driver then creates one
`InsightFeedback` row per cluster member whose id is in that list, with
relevance 95 / key-quote 1 when the member's text occurs among the
insight's key quotes and relevance 80 / key-quote 0 otherwise.
-/

/-- The `supporting_feedback_ids` snapshot computed by both
`_generate_insights_with_llm` (line 135) and `_generate_simple_insight`
(line 305): the ids of all feedback items passed in. -/
def supporting_feedback_ids (feedback_items : List FeedbackRow) : List ℕ :=
  feedback_items.map (·.id)

/-- The `InsightFeedback` rows created by the `for feedback in
cluster_feedback` loop of `run_clustering` for one insight. -/
def created_links (insight_id : ℕ) (cluster_feedback : List FeedbackRow)
    (supporting : List ℕ) (key_quotes : List String) : List LinkRow :=
  cluster_feedback.filterMap (fun f =>
    if f.id ∈ supporting then
      some { insight_id := insight_id
             feedback_id := f.id
             relevance_score := if f.text ∈ key_quotes then 95 else 80
             is_key_quote := if f.text ∈ key_quotes then 1 else 0 }
    else none)

/-! ## Theme frequency metrics (`run_clustering.py`, `calculate_theme_metrics`)

For each theme the metrics pass iterates over its feedback and collects
two distinct-account sets: feedback created within the last 30 days is
added to both `accounts_30d` and `accounts_90d`; otherwise feedback
within the last 90 days is added to `accounts_90d` only.  A null account
falls back to the literal string `"unknown"`; Python's `f.account or
"unknown"` also maps the falsy empty string to `"unknown"`.  Time is
modelled in days: `cutoff_30d = now - 30`, `cutoff_90d = now - 90`.
-/

/-- `f.account or "unknown"`: `None` and the empty string bucket to
`"unknown"`. -/
def account_bucket (account : Option String) : String :=
  match account with
  | none => "unknown"
  | some s => if s = "" then "unknown" else s

/-- One iteration of the `for f in feedback_items` loop building the
`(accounts_30d, accounts_90d)` pair of sets. -/
def accounts_step (now : ℤ) (st : Finset String × Finset String)
    (f : FeedbackRow) : Finset String × Finset String :=
  if now - 30 ≤ f.created_at then
    (insert (account_bucket f.account) st.1, insert (account_bucket f.account) st.2)
  else if now - 90 ≤ f.created_at then
    (st.1, insert (account_bucket f.account) st.2)
  else st

/-- The `(accounts_30d, accounts_90d)` sets computed for one theme. -/
def theme_accounts (feedback_items : List FeedbackRow) (now : ℤ) :
    Finset String × Finset String :=
  feedback_items.foldl (accounts_step now) (∅, ∅)

/-- `freq_30d = len(accounts_30d)`. -/
def freq_30d_of (feedback_items : List FeedbackRow) (now : ℤ) : ℕ :=
  (theme_accounts feedback_items now).1.card

/-- `freq_90d = len(accounts_90d)`. -/
def freq_90d_of (feedback_items : List FeedbackRow) (now : ℤ) : ℕ :=
  (theme_accounts feedback_items now).2.card

/-! ## Deterministic fallback severity (`insights.py`, `_generate_simple_insight`)

The fallback path counts distinct non-null customer ids over ALL feedback
of the cluster (`affected` defaults to `1` when that set is empty), checks
the lowercased theme label for enterprise keywords, and classifies
severity as high / medium / low by thresholds.  No branch produces
"critical".
-/

/-- The enterprise keyword list of `_generate_simple_insight`. -/
def enterprise_keywords : List String :=
  ["enterprise", "security", "compliance", "sso", "saml"]

/-- Python `s.lower()`, restricted to the ASCII labels the pipeline
produces. -/
def str_lower (s : String) : String :=
  String.mk (s.data.map Char.toLower)

/-- Python `s.startswith(needle)` on character lists. -/
def list_startsWith : List Char → List Char → Bool
  | [], _ => true
  | _ :: _, [] => false
  | c :: cs, h :: hs => c == h && list_startsWith cs hs

/-- Python `needle in hay` for strings: contiguous substring containment
(true for the empty needle). -/
def list_containsSub (needle : List Char) : List Char → Bool
  | [] => list_startsWith needle []
  | h :: hs => list_startsWith needle (h :: hs) || list_containsSub needle hs

/-- `has_enterprise_impact = any(kw in theme_label.lower() for kw in
enterprise_keywords)`: substring containment on the lowercased label. -/
def has_enterprise_impact (theme_label : String) : Bool :=
  enterprise_keywords.any (fun kw => list_containsSub kw.data (str_lower theme_label).data)

/-- `set(f.customer_id for f in feedback_items if f.customer_id)`:
the distinct non-null customer ids of the cluster. -/
def unique_customer_ids (feedback_items : List FeedbackRow) : Finset ℕ :=
  (feedback_items.filterMap (·.customer_id)).toFinset

/-- `affected = len(unique_customer_ids) if unique_customer_ids else 1`. -/
def affected_count (feedback_items : List FeedbackRow) : ℕ :=
  if unique_customer_ids feedback_items = ∅ then 1
  else (unique_customer_ids feedback_items).card

/-- The severity classification of the deterministic fallback path. -/
def simple_insight_severity (feedback_items : List FeedbackRow)
    (theme_label : String) : String :=
  if (5 ≤ affected_count feedback_items ∨ 10 ≤ feedback_items.length)
      ∨ has_enterprise_impact theme_label = true then "high"
  else if 3 ≤ affected_count feedback_items ∨ 5 ≤ feedback_items.length then "medium"
  else "low"

/-! ## Clustering short circuit (`clustering.py`, `cluster_embeddings`)

`cluster_embeddings` returns the empty list before touching HDBSCAN /
KMeans whenever fewer embeddings than
`settings.clustering_min_feedback_count` are supplied.  The actual
clustering backend is an external collaborator; it is embedded as an
arbitrary function that may also fail (`Except`), so the theorem
exhibits both that no exception escapes and that the backend is never
consulted on the short-circuit path.
-/

/-- The `ClusterResult` dataclass of the clustering service. -/
structure ClusterResult where
  cluster_id : ℕ
  label : String
  description : Option String
  centroid : List ℚ
  member_indices : List ℕ
  member_confidences : List ℚ
deriving DecidableEq, Repr

/-- `cluster_embeddings(embeddings, texts)`: empty result below the
configured minimum feedback count, otherwise the clustering backend
(HDBSCAN or the KMeans fallback) runs. -/
def cluster_embeddings (min_feedback_count : ℕ)
    (embeddings : List (List ℚ)) (texts : List String)
    (backend : List (List ℚ) → List String → Except String (List ClusterResult)) :
    Except String (List ClusterResult) :=
  if embeddings.length < min_feedback_count then Except.ok []
  else backend embeddings texts

/-! ## Pipeline transaction structure (`run_clustering.py`, `run_clustering_pipeline`)

`run_clustering_pipeline` opens a first session, deletes every
`InsightFeedback`, `Insight`, `ThemeMetrics`, `FeedbackTheme` and `Theme`
row and COMMITS, then calls `run_clustering`, which works in a second,
independent session (`get_db_context` rolls back uncommitted work on an
exception and re-raises).  `run_clustering` itself has three commit
points: the creation of all themes, insights and links commits at line
248; `deduplicate_insights` commits its merges (line 118); and
`calculate_theme_metrics` commits the metrics (line 386).  The latter
two run with NO exception handling around them, so a failure there
propagates with the new batch already committed.  The database is
modelled by the contents of the five derived tables (row ids suffice for
the claim); each phase of the run is an arbitrary, possibly failing
function from the last committed state to the state its own commit makes
visible.
-/

/-- The five derived tables replaced by a pipeline run. -/
structure DBState where
  themes : List ℕ
  theme_metrics : List ℕ
  insights : List ℕ
  feedback_themes : List ℕ
  insight_feedback : List ℕ
deriving DecidableEq, Repr

/-- The first transaction of `run_clustering_pipeline`: delete all five
derived tables, then `db.commit()`. -/
def clear_derived (_db : DBState) : DBState :=
  { themes := []
    theme_metrics := []
    insights := []
    feedback_themes := []
    insight_feedback := [] }

/-- The commit structure of `run_clustering` on the already-cleared
state: `build_batch` is everything up to and including the
`db.commit()` of line 248 (theme/insight/link creation), `dedup` is
`deduplicate_insights` up to its commit, `metrics` is
`calculate_theme_metrics` up to its commit.  A phase that raises leaves
the previously committed state visible — its own uncommitted writes are
rolled back by `get_db_context`. -/
def run_clustering_phases (cleared : DBState)
    (build_batch dedup metrics : DBState → Except String DBState) :
    DBState × Option String :=
  match build_batch cleared with
  | Except.error e => (cleared, some e)
  | Except.ok batch =>
    match dedup batch with
    | Except.error e => (batch, some e)
    | Except.ok deduped =>
      match metrics deduped with
      | Except.error e => (deduped, some e)
      | Except.ok final => (final, none)

/-- `run_clustering_pipeline` as a function from the pre-run committed
state to the final committed state plus an optional propagated error:
the clear commits first, then the three phases of `run_clustering`
execute with their own commit points. -/
def run_clustering_pipeline (pre : DBState)
    (build_batch dedup metrics : DBState → Except String DBState) :
    DBState × Option String :=
  run_clustering_phases (clear_derived pre) build_batch dedup metrics

/-! ## Title similarity (`difflib.SequenceMatcher` and `title_similarity`)

`title_similarity(t1, t2) = SequenceMatcher(None, t1.lower(), t2.lower()).ratio()`.
The embedding reproduces CPython's `difflib` for the strings the pipeline
compares: insight titles are far shorter than 200 characters, so
autojunk never marks any character as junk, and with an empty junk set
the four junk-extension `while` loops of `find_longest_match` can never
fire (any extension would contradict the maximality of the block found
by the dictionary loop).  Float arithmetic of `ratio()` is embedded as
exact rational arithmetic.
-/

/-- The positions `j` of character `c` in `b` with `blo <= j < bhi`, in
ascending order — what the `for j in b2j.get(a[i], nothing)` loop of
`find_longest_match` iterates over after its `continue`/`break` guards. -/
def occIndices (b : List Char) (c : Char) (blo bhi : ℕ) : List ℕ :=
  (List.range b.length).filter (fun j => blo ≤ j && j < bhi && b.getD j ' ' == c)

/-- The dictionary loop of `SequenceMatcher.find_longest_match` on the
range `a[alo:ahi]`, `b[blo:bhi]`: returns `(besti, bestj, bestsize)`,
the leftmost longest matching block.  The running `j2len` dict is
embedded as a function that is zero outside its keys (matching
`j2len.get(j-1, 0)`). -/
def findLongestMatch (a b : List Char) (alo ahi blo bhi : ℕ) : ℕ × ℕ × ℕ :=
  let step := fun (st : (ℕ → ℕ) × (ℕ × ℕ × ℕ)) (i : ℕ) =>
    let j2len := st.1
    (occIndices b (a.getD i ' ') blo bhi).foldl
      (fun (st2 : (ℕ → ℕ) × (ℕ × ℕ × ℕ)) j =>
        let k := (if j = 0 then 0 else j2len (j - 1)) + 1
        let newj2len := fun m => if m = j then k else st2.1 m
        let best := if st2.2.2.2 < k then (i + 1 - k, (j + 1 - k, k)) else st2.2
        (newj2len, best))
      ((fun _ => 0), st.2)
  (((List.range' alo (ahi - alo)).foldl step ((fun _ => 0), (alo, (blo, 0))))).2

/-- Total size of all matching blocks, as summed by
`SequenceMatcher.get_matching_blocks`: find the longest match, recurse on
the pieces left and right of it.  Each recursive call strictly shrinks
`(ahi - alo) + (bhi - blo)`, so fuel `a.length + b.length + 1` (supplied
by `seqRatioVal`) is never exhausted. -/
def matchingTotal (a b : List Char) : ℕ → ℕ → ℕ → ℕ → ℕ → ℕ
  | 0, _, _, _, _ => 0
  | fuel + 1, alo, ahi, blo, bhi =>
    let m := findLongestMatch a b alo ahi blo bhi
    if m.2.2 = 0 then 0
    else
      matchingTotal a b fuel alo m.1 blo m.2.1 + m.2.2
        + matchingTotal a b fuel (m.1 + m.2.2) ahi (m.2.1 + m.2.2) bhi

/-- `SequenceMatcher.ratio()`: `2.0 * matches / (len(a) + len(b))`
(`1.0` for two empty sequences), with the float quotient embedded as an
exact rational. -/
def seqRatioVal (a b : List Char) : ℚ :=
  let total := a.length + b.length
  if total = 0 then 1
  else 2 * (matchingTotal a b (total + 1) 0 a.length 0 b.length : ℚ) / (total : ℚ)

/-- `title_similarity(title1, title2)` from `run_clustering.py`:
sequence-match ratio of the lowercased titles. -/
def title_similarity (title1 title2 : String) : ℚ :=
  seqRatioVal (str_lower title1).data (str_lower title2).data

/-! ## Insight deduplication (`run_clustering.py`, `deduplicate_insights`)

The session state touched by `deduplicate_insights` is the list of
`Insight` rows (queried once, up front) and the list of `InsightFeedback`
rows.  The double loop marks duplicates for deletion and moves their
feedback links; the final phase deletes the marked `Insight` rows.
`Insight` has no cascade configured on `InsightFeedback`
(`apps/api/models/insight.py`), so deleting an insight row leaves its
remaining link rows in place.
-/

/-- The link moves performed for one merge: query the links of the
discarded insight, then for each either retarget it to the kept insight
or delete it when that exact `(kept, feedback)` pair already exists. -/
def mergeLinks (keep_id del_id : ℕ) (links : List LinkRow) : List LinkRow :=
  let feedback_links := links.filter (fun l => l.insight_id == del_id)
  feedback_links.foldl
    (fun cur l =>
      if (cur.filter (fun e =>
            e.insight_id == keep_id && e.feedback_id == l.feedback_id)).isEmpty then
        cur.map (fun e => if e = l then { e with insight_id := keep_id } else e)
      else
        cur.filter (fun e => e ≠ l))
    links

/-- The comparison `title_similarity(t1, t2) > 0.85` of
`deduplicate_insights`, carried out in exact integer arithmetic:
`2 * M / T > 85 / 100` iff `17 * T < 40 * M` (and a ratio of `1.0` for
two empty titles always exceeds the threshold).
`similarity_gt_85_iff` below proves this Boolean equal to the
rational comparison on `title_similarity`. -/
def similarity_gt_85 (title1 title2 : String) : Bool :=
  if (str_lower title1).data.length + (str_lower title2).data.length = 0 then true
  else
    decide (17 * ((str_lower title1).data.length + (str_lower title2).data.length) <
      40 * matchingTotal (str_lower title1).data (str_lower title2).data
        ((str_lower title1).data.length + (str_lower title2).data.length + 1)
        0 (str_lower title1).data.length 0 (str_lower title2).data.length)

/-- The integer-arithmetic threshold test agrees with the rational
comparison `0.85 < title_similarity t1 t2`. -/
lemma similarity_gt_85_iff (title1 title2 : String) :
    similarity_gt_85 title1 title2 = true ↔
      (0.85 : ℚ) < title_similarity title1 title2 := by
  unfold similarity_gt_85 title_similarity seqRatioVal
  by_cases h : (str_lower title1).data.length + (str_lower title2).data.length = 0
  · rw [if_pos h]
    simp only [h, if_pos rfl]
    norm_num
  · rw [if_neg h]
    simp only [if_neg h, decide_eq_true_eq]
    have hT : (0 : ℚ) < ((str_lower title1).data.length + (str_lower title2).data.length : ℕ) := by
      exact_mod_cast Nat.pos_of_ne_zero h
    rw [lt_div_iff₀ hT]
    push_cast
    constructor
    · intro hlt
      have hq : ((17 * ((str_lower title1).data.length + (str_lower title2).data.length) : ℕ) : ℚ)
          < ((40 * matchingTotal (str_lower title1).data (str_lower title2).data
              ((str_lower title1).data.length + (str_lower title2).data.length + 1)
              0 (str_lower title1).data.length 0 (str_lower title2).data.length : ℕ) : ℚ) := by
        exact_mod_cast hlt
      push_cast at hq
      linarith
    · intro hlt
      have hq : ((17 * ((str_lower title1).data.length + (str_lower title2).data.length) : ℕ) : ℚ)
          < ((40 * matchingTotal (str_lower title1).data (str_lower title2).data
              ((str_lower title1).data.length + (str_lower title2).data.length + 1)
              0 (str_lower title1).data.length 0 (str_lower title2).data.length : ℕ) : ℚ) := by
        push_cast
        linarith
      exact_mod_cast hq

/-- The body of the inner `for j in range(i + 1, len(insights))` loop:
skip already-deleted `insights[j]`, compare titles, and on similarity
above `0.85` merge, preferring the higher `priority_score` (the kept
insight is `insights[j]` only when its score is strictly higher). -/
def dedupInnerStep (insights : List InsightRow) (i : ℕ)
    (st : List ℕ × List LinkRow) (j : ℕ) : List ℕ × List LinkRow :=
  let insI := insights.getD i default
  let insJ := insights.getD j default
  if insJ.id ∈ st.1 then st
  else
    if similarity_gt_85 insI.title insJ.title then
      let keep := if insI.priority_score < insJ.priority_score then insJ else insI
      let del := if insI.priority_score < insJ.priority_score then insI else insJ
      (del.id :: st.1, mergeLinks keep.id del.id st.2)
    else st

/-- The body of the outer `for i in range(len(insights))` loop: the
deleted-check on `insights[i]` happens once, BEFORE the inner loop — it
is not re-examined when `insights[i]` itself gets marked mid-loop. -/
def dedupOuterStep (insights : List InsightRow)
    (st : List ℕ × List LinkRow) (i : ℕ) : List ℕ × List LinkRow :=
  let insI := insights.getD i default
  if insI.id ∈ st.1 then st
  else (List.range' (i + 1) (insights.length - (i + 1))).foldl (dedupInnerStep insights i) st

/-- `deduplicate_insights(db)`: the full pass over all insights, followed
by the deletion of the marked insight rows (their surviving link rows are
untouched — no cascade). -/
def deduplicate_insights (insights : List InsightRow) (links : List LinkRow) :
    List InsightRow × List LinkRow :=
  if insights.length < 2 then (insights, links)
  else
    let final := (List.range insights.length).foldl (dedupOuterStep insights) ([], links)
    (insights.filter (fun ins => ins.id ∉ final.1), final.2)

/-! ## Theorems -/

/-- Clamping `max(0.0, min(1.0, x))` is non-negative. -/
lemma clamp01_nonneg (x : ℝ) : 0 ≤ max 0 (min 1 x) :=
  le_max_left 0 _

/-- Clamping `max(0.0, min(1.0, x))` is at most one. -/
lemma clamp01_le_one (x : ℝ) : max 0 (min 1 x) ≤ 1 :=
  max_le zero_le_one (min_le_left 1 x)

/-- `normalize_min_max` always lands in the unit interval. -/
lemma normalize_min_max_mem_unit (value min_val max_val : ℝ) :
    0 ≤ normalize_min_max value min_val max_val ∧
      normalize_min_max value min_val max_val ≤ 1 := by
  unfold normalize_min_max
  split_ifs
  · exact ⟨le_refl 0, zero_le_one⟩
  · exact ⟨clamp01_nonneg _, clamp01_le_one _⟩

/-- C5.  For valid scorer inputs (each statistic non-negative and at most
its global maximum, `avg_sentiment` in `[-1, 1]`), FrequencyNorm, ACVNorm,
SentimentLift and FinalScore all lie in `[0, 1]`, and `normalize_min_max`
returns `0` whenever its bounds coincide. -/
theorem theme_score_components_bounded
    (freq_30d freq_90d max_freq_30d max_freq_90d : ℕ)
    (acv_sum max_acv_sum avg_sentiment similarity_to_higher : ℝ)
    (segment_counts : List (String × ℕ)) (weekly_counts : List ℕ)
    (weights : ScoreWeights) (segment_priorities : SegmentPriorities)
    (h30 : freq_30d ≤ max_freq_30d) (h90 : freq_90d ≤ max_freq_90d)
    (hacv0 : 0 ≤ acv_sum) (hacvm : acv_sum ≤ max_acv_sum)
    (hs1 : -1 ≤ avg_sentiment) (hs2 : avg_sentiment ≤ 1) :
    (0 ≤ calculate_frequency_norm freq_30d freq_90d max_freq_30d max_freq_90d ∧
      calculate_frequency_norm freq_30d freq_90d max_freq_30d max_freq_90d ≤ 1) ∧
    (0 ≤ calculate_acv_norm acv_sum max_acv_sum ∧
      calculate_acv_norm acv_sum max_acv_sum ≤ 1) ∧
    (0 ≤ calculate_sentiment_lift avg_sentiment ∧
      calculate_sentiment_lift avg_sentiment ≤ 1) ∧
    (0 ≤ (calculate_theme_score freq_30d freq_90d acv_sum avg_sentiment
        segment_counts weekly_counts similarity_to_higher
        max_freq_30d max_freq_90d max_acv_sum weights segment_priorities).final_score ∧
      (calculate_theme_score freq_30d freq_90d acv_sum avg_sentiment
        segment_counts weekly_counts similarity_to_higher
        max_freq_30d max_freq_90d max_acv_sum weights segment_priorities).final_score ≤ 1) ∧
    (∀ v lo : ℝ, normalize_min_max v lo lo = 0) := by
  refine ⟨?_, ?_, ?_, ?_, ?_⟩
  · have hb30 := normalize_min_max_mem_unit (freq_30d : ℝ) 0 ((max max_freq_30d 1 : ℕ) : ℝ)
    have hb90 := normalize_min_max_mem_unit (freq_90d : ℝ) 0 ((max max_freq_90d 1 : ℕ) : ℝ)
    unfold calculate_frequency_norm
    constructor
    · nlinarith [hb30.1, hb90.1]
    · nlinarith [hb30.2, hb90.2]
  · unfold calculate_acv_norm
    split_ifs with h
    · exact ⟨le_refl 0, zero_le_one⟩
    · push_neg at h
      have hl1 : 0 ≤ Real.log (1 + acv_sum) := Real.log_nonneg (by linarith)
      have hl2 : Real.log (1 + acv_sum) ≤ Real.log (1 + max_acv_sum) :=
        Real.log_le_log (by linarith) (by linarith)
      have hl3 : 0 < Real.log (1 + max_acv_sum) := Real.log_pos (by linarith)
      exact ⟨div_nonneg hl1 hl3.le, (div_le_one hl3).mpr hl2⟩
  · exact ⟨clamp01_nonneg _, clamp01_le_one _⟩
  · unfold calculate_theme_score
    exact ⟨clamp01_nonneg _, clamp01_le_one _⟩
  · intro v lo
    unfold normalize_min_max
    simp

/-- Witness for C5 at concrete valid inputs. -/
theorem theme_score_components_bounded_witness :
    ((1 : ℕ) ≤ 2 ∧ (2 : ℕ) ≤ 3 ∧ (0 : ℝ) ≤ 0 ∧ (0 : ℝ) ≤ 1 ∧
      (-1 : ℝ) ≤ 0 ∧ (0 : ℝ) ≤ 1) ∧
    ((0 ≤ calculate_frequency_norm 1 2 2 3 ∧ calculate_frequency_norm 1 2 2 3 ≤ 1) ∧
      (0 ≤ calculate_acv_norm 0 1 ∧ calculate_acv_norm 0 1 ≤ 1) ∧
      (0 ≤ calculate_sentiment_lift 0 ∧ calculate_sentiment_lift 0 ≤ 1) ∧
      (0 ≤ (calculate_theme_score 1 2 0 0 [("ENT", 1)] [1, 2] 0 2 3 1
          ⟨0.35, 0.30, 0.10, 0.15, 0.10, 0.10⟩ ⟨1, 0.7, 0.5⟩).final_score ∧
        (calculate_theme_score 1 2 0 0 [("ENT", 1)] [1, 2] 0 2 3 1
          ⟨0.35, 0.30, 0.10, 0.15, 0.10, 0.10⟩ ⟨1, 0.7, 0.5⟩).final_score ≤ 1) ∧
      (∀ v lo : ℝ, normalize_min_max v lo lo = 0)) :=
  ⟨by norm_num,
    theme_score_components_bounded 1 2 2 3 0 1 0 0 [("ENT", 1)] [1, 2]
      ⟨0.35, 0.30, 0.10, 0.15, 0.10, 0.10⟩ ⟨1, 0.7, 0.5⟩
      (by norm_num) (by norm_num) (by norm_num) (by norm_num) (by norm_num) (by norm_num)⟩

/-- C8.  `calculate_dup_penalty` is `0.5 * s` above the `0.85` threshold
and `0` otherwise, and because `calculate_theme_metrics` always passes
`similarity_to_higher=0.0`, the duplicate penalty the pipeline stores is
identically zero. -/
theorem dup_penalty_formula_and_inert :
    (∀ s : ℝ, calculate_dup_penalty s = if 0.85 < s then 0.5 * s else 0) ∧
    (∀ (freq_30d freq_90d : ℕ) (acv_sum sentiment : ℝ)
        (segment_counts : List (String × ℕ)) (weekly_counts : List ℕ)
        (max_freq_30d max_freq_90d : ℕ) (max_acv_sum : ℝ)
        (weights : ScoreWeights) (segment_priorities : SegmentPriorities),
      (theme_metrics_components freq_30d freq_90d acv_sum sentiment segment_counts
          weekly_counts max_freq_30d max_freq_90d max_acv_sum
          weights segment_priorities).dup_penalty = 0) := by
  constructor
  · intro s
    rfl
  · intro freq_30d freq_90d acv_sum sentiment segment_counts weekly_counts
      max_freq_30d max_freq_90d max_acv_sum weights segment_priorities
    unfold theme_metrics_components calculate_theme_score calculate_dup_penalty
    norm_num

/-- C9.  `calculate_sentiment_lift` is antitone, and takes the anchor
values `1`, `0.5`, `0` at sentiments `-1`, `0`, `1`; in particular
`lift(-0.5) > lift(0.5)`. -/
theorem sentiment_lift_antitone_anchors (s1 s2 : ℝ) (h : s1 < s2) :
    calculate_sentiment_lift s2 ≤ calculate_sentiment_lift s1 ∧
    calculate_sentiment_lift 0.5 < calculate_sentiment_lift (-0.5) ∧
    calculate_sentiment_lift (-1) = 1 ∧
    calculate_sentiment_lift 0 = 0.5 ∧
    calculate_sentiment_lift 1 = 0 := by
  refine ⟨?_, ?_, ?_, ?_, ?_⟩
  · unfold calculate_sentiment_lift
    exact max_le_max (le_refl 0) (min_le_min (le_refl 1) (by linarith))
  · unfold calculate_sentiment_lift
    rw [show ((1 : ℝ) - 0.5) / 2 = 0.25 by norm_num,
      show ((1 : ℝ) - (-0.5)) / 2 = 0.75 by norm_num]
    rw [min_eq_right (by norm_num), min_eq_right (by norm_num)]
    rw [max_eq_right (by norm_num), max_eq_right (by norm_num)]
    norm_num
  · unfold calculate_sentiment_lift
    rw [show ((1 : ℝ) - (-1)) / 2 = 1 by norm_num]
    simp
  · unfold calculate_sentiment_lift
    rw [show ((1 : ℝ) - 0) / 2 = 0.5 by norm_num]
    rw [min_eq_right (by norm_num), max_eq_right (by norm_num)]
  · unfold calculate_sentiment_lift
    rw [show ((1 : ℝ) - 1) / 2 = 0 by norm_num]
    simp

/-- Witness for C9 at `s1 = 0 < 1 = s2`. -/
theorem sentiment_lift_antitone_anchors_witness :
    (0 : ℝ) < 1 ∧
    (calculate_sentiment_lift 1 ≤ calculate_sentiment_lift 0 ∧
      calculate_sentiment_lift 0.5 < calculate_sentiment_lift (-0.5) ∧
      calculate_sentiment_lift (-1) = 1 ∧
      calculate_sentiment_lift 0 = 0.5 ∧
      calculate_sentiment_lift 1 = 0) :=
  ⟨by norm_num, sentiment_lift_antitone_anchors 0 1 (by norm_num)⟩

/-- C1 counterexample.  For severity `"critical"` and effort `"low"` the
driver stores `int((100 + 75) / 2) = 87`, not the claimed
`round((100 + 75) / 2) = 88`. -/
theorem priority_score_critical_low_example :
    priority_score "critical" "low" = 87 ∧ priority_score "critical" "low" ≠ 88 := by
  decide

/-- C1 amended.  The stored priority score is the TRUNCATION (floor) of
`(severity_score + effort_score) / 2` — Python `int()`, not `round()` —
and for severity `"critical"`, effort `"low"` it equals `87`. -/
theorem priority_score_truncated_mean :
    (∀ severity effort : String,
      priority_score severity effort =
        ⌊((severity_score severity + effort_score effort : ℕ) : ℚ) / 2⌋₊) ∧
    priority_score "critical" "low" = 87 := by
  constructor
  · intro severity effort
    rw [Nat.floor_div_ofNat, Nat.floor_natCast]
    rfl
  · decide

/-- Folding the account-collection step preserves containment of the
30-day set in the 90-day set. -/
lemma theme_accounts_foldl_sub (now : ℤ) (items : List FeedbackRow) :
    ∀ st : Finset String × Finset String, st.1 ⊆ st.2 →
      (items.foldl (accounts_step now) st).1 ⊆ (items.foldl (accounts_step now) st).2 := by
  induction items with
  | nil => exact fun _ h => h
  | cons f t ih =>
    intro st h
    simp only [List.foldl_cons]
    apply ih
    unfold accounts_step
    split_ifs
    · exact Finset.insert_subset_insert _ h
    · exact h.trans (Finset.subset_insert _ _)
    · exact h

/-- C6.  For every theme feedback list and every current time, every
account counted in `freq_30d` is also counted in `freq_90d`, hence
`freq_30d ≤ freq_90d`. -/
theorem freq_90d_cumulative (feedback_items : List FeedbackRow) (now : ℤ) :
    (theme_accounts feedback_items now).1 ⊆ (theme_accounts feedback_items now).2 ∧
    freq_30d_of feedback_items now ≤ freq_90d_of feedback_items now := by
  have h : (theme_accounts feedback_items now).1 ⊆ (theme_accounts feedback_items now).2 :=
    theme_accounts_foldl_sub now feedback_items (∅, ∅) (by simp)
  exact ⟨h, Finset.card_le_card h⟩

/-- C7.  Below the configured minimum feedback count,
`cluster_embeddings` returns the empty cluster list as a normal result —
for EVERY clustering backend, including one that always fails; no
exception propagates and the backend is never consulted. -/
theorem cluster_embeddings_short_input_empty
    (min_feedback_count : ℕ) (embeddings : List (List ℚ)) (texts : List String)
    (backend : List (List ℚ) → List String → Except String (List ClusterResult))
    (h : embeddings.length < min_feedback_count) :
    cluster_embeddings min_feedback_count embeddings texts backend = Except.ok [] := by
  unfold cluster_embeddings
  rw [if_pos h]

/-- Witness for C7: one embedding against a minimum of five, with a
backend that always raises. -/
theorem cluster_embeddings_short_input_empty_witness :
    [[(1 : ℚ)]].length < 5 ∧
    cluster_embeddings 5 [[(1 : ℚ)]] ["too few"]
        (fun _ _ => Except.error "backend failure") = Except.ok [] :=
  ⟨by decide,
    cluster_embeddings_short_input_empty 5 [[(1 : ℚ)]] ["too few"]
      (fun _ _ => Except.error "backend failure") (by decide)⟩

/-- If every member's id occurs in the supporting list, the created link
rows cover the cluster exactly, member for member. -/
lemma created_links_map_of_mem (insight_id : ℕ) (sup : List ℕ) (key_quotes : List String) :
    ∀ cluster : List FeedbackRow, (∀ f ∈ cluster, f.id ∈ sup) →
      (created_links insight_id cluster sup key_quotes).map LinkRow.feedback_id =
        cluster.map FeedbackRow.id := by
  intro cluster
  induction cluster with
  | nil => intro _; rfl
  | cons f t ih =>
    intro h
    have hf : f.id ∈ sup := h f (by simp)
    have ht : ∀ g ∈ t, g.id ∈ sup := fun g hg => h g (by simp [hg])
    have hstep : created_links insight_id (f :: t) sup key_quotes =
        { insight_id := insight_id
          feedback_id := f.id
          relevance_score := if f.text ∈ key_quotes then 95 else 80
          is_key_quote := if f.text ∈ key_quotes then 1 else 0 } ::
          created_links insight_id t sup key_quotes := by
      simp only [created_links, List.filterMap_cons, if_pos hf]
    rw [hstep, List.map_cons, ih ht, List.map_cons]

/-- A concrete cluster used to exhibit the linking behaviour of C2. -/
def c2_cluster : List FeedbackRow :=
  [⟨1, "fb one", 0, none, some 11⟩,
   ⟨2, "fb two", 0, none, some 12⟩,
   ⟨3, "fb three", 0, none, some 11⟩]

/-- C2 counterexample.  On a concrete three-member cluster, the
`supporting_feedback_ids` snapshot (as set by both generation paths)
contains every member id, and the loop of `run_clustering` creates one
link row per cluster member — links are created for ALL members of the
insight's cluster, contradicting the claim. -/
theorem insight_links_cover_cluster_example :
    supporting_feedback_ids c2_cluster = c2_cluster.map FeedbackRow.id ∧
    (created_links 7 c2_cluster (supporting_feedback_ids c2_cluster) []).map
        LinkRow.feedback_id = [1, 2, 3] ∧
    c2_cluster.map FeedbackRow.id = [1, 2, 3] ∧
    (created_links 7 c2_cluster (supporting_feedback_ids c2_cluster) []).length =
      c2_cluster.length := by
  refine ⟨rfl, by decide, by decide, by decide⟩

/-- C2 amended.  For every insight persisted by the pipeline, the created
`InsightFeedback` rows are exactly the feedback whose ids occur in the
insight's `supporting_feedback_ids` snapshot — and since both generation
paths set that snapshot to the ids of ALL cluster feedback, every member
of the cluster gets a link row. -/
theorem insight_links_cover_cluster (insight_id : ℕ)
    (cluster_feedback : List FeedbackRow) (key_quotes : List String) :
    (created_links insight_id cluster_feedback
        (supporting_feedback_ids cluster_feedback) key_quotes).map LinkRow.feedback_id =
      cluster_feedback.map FeedbackRow.id :=
  created_links_map_of_mem insight_id (supporting_feedback_ids cluster_feedback)
    key_quotes cluster_feedback
    (fun f hf => List.mem_map_of_mem FeedbackRow.id hf)

/-- A concrete non-empty pre-run database state for C3. -/
def c3_prerun : DBState :=
  { themes := [41]
    theme_metrics := [41]
    insights := [9]
    feedback_themes := [41]
    insight_feedback := [9] }

/-- A concrete committed new batch for C3, distinct from both the
pre-run state and the cleared state. -/
def c3_batch : DBState :=
  { themes := [100]
    theme_metrics := []
    insights := [50]
    feedback_themes := [100]
    insight_feedback := [50] }

/-- C3 counterexample.  When the run fails after the pipeline has
started, the committed state is NOT the pre-run state.  Two failure
scenarios: the persistence of the new batch fails (visible state:
cleared, all derived tables empty), and deduplication fails after the
batch commit of line 248 (visible state: the already-committed new
batch).  In neither scenario do the pre-run rows remain intact, because
the clearing transaction committed before the run. -/
theorem pipeline_failure_example :
    ((run_clustering_pipeline c3_prerun (fun _ => Except.error "persistence failure")
        (fun s => Except.ok s) (fun s => Except.ok s)).2 = some "persistence failure" ∧
      (run_clustering_pipeline c3_prerun (fun _ => Except.error "persistence failure")
        (fun s => Except.ok s) (fun s => Except.ok s)).1 ≠ c3_prerun ∧
      (run_clustering_pipeline c3_prerun (fun _ => Except.error "persistence failure")
        (fun s => Except.ok s) (fun s => Except.ok s)).1.themes = []) ∧
    ((run_clustering_pipeline c3_prerun (fun _ => Except.ok c3_batch)
        (fun _ => Except.error "dedup failure") (fun s => Except.ok s)).2 =
          some "dedup failure" ∧
      (run_clustering_pipeline c3_prerun (fun _ => Except.ok c3_batch)
        (fun _ => Except.error "dedup failure") (fun s => Except.ok s)).1 ≠ c3_prerun ∧
      (run_clustering_pipeline c3_prerun (fun _ => Except.ok c3_batch)
        (fun _ => Except.error "dedup failure") (fun s => Except.ok s)).1 = c3_batch) := by
  refine ⟨⟨rfl, by decide, rfl⟩, ⟨rfl, by decide, rfl⟩⟩

/-- C3 amended.  A failing run never leaves the pre-run rows: the clear
commits first in its own transaction, so what remains visible is built
on the cleared state.  A failure before the new-batch commit of line 248
leaves the cleared (empty) derived state; a failure in the unprotected
`deduplicate_insights` leaves the already-committed batch; a failure in
the unprotected `calculate_theme_metrics` leaves the state of the last
commit before it. -/
theorem pipeline_failure_visible_states (pre : DBState)
    (build_batch dedup metrics : DBState → Except String DBState) (e : String) :
    (build_batch (clear_derived pre) = Except.error e →
      run_clustering_pipeline pre build_batch dedup metrics =
        (clear_derived pre, some e)) ∧
    (∀ batch, build_batch (clear_derived pre) = Except.ok batch →
      dedup batch = Except.error e →
      run_clustering_pipeline pre build_batch dedup metrics = (batch, some e)) ∧
    (∀ batch deduped, build_batch (clear_derived pre) = Except.ok batch →
      dedup batch = Except.ok deduped → metrics deduped = Except.error e →
      run_clustering_pipeline pre build_batch dedup metrics = (deduped, some e)) := by
  refine ⟨?_, ?_, ?_⟩
  · intro h
    unfold run_clustering_pipeline run_clustering_phases
    rw [h]
  · intro batch hb hd
    unfold run_clustering_pipeline run_clustering_phases
    rw [hb]
    dsimp only
    rw [hd]
  · intro batch deduped hb hd hm
    unfold run_clustering_pipeline run_clustering_phases
    rw [hb]
    dsimp only
    rw [hd]
    dsimp only
    rw [hm]

/-- Witness for C3 amended: all three failure scenarios at concrete
states — batch-persistence failure, deduplication failure and metrics
failure. -/
theorem pipeline_failure_visible_states_witness :
    run_clustering_pipeline c3_prerun (fun _ => Except.error "persistence failure")
        (fun s => Except.ok s) (fun s => Except.ok s) =
      (clear_derived c3_prerun, some "persistence failure") ∧
    run_clustering_pipeline c3_prerun (fun _ => Except.ok c3_batch)
        (fun _ => Except.error "dedup failure") (fun s => Except.ok s) =
      (c3_batch, some "dedup failure") ∧
    run_clustering_pipeline c3_prerun (fun _ => Except.ok c3_batch)
        (fun s => Except.ok s) (fun _ => Except.error "metrics failure") =
      (c3_batch, some "metrics failure") :=
  ⟨(pipeline_failure_visible_states c3_prerun (fun _ => Except.error "persistence failure")
      (fun s => Except.ok s) (fun s => Except.ok s) "persistence failure").1 rfl,
    (pipeline_failure_visible_states c3_prerun (fun _ => Except.ok c3_batch)
      (fun _ => Except.error "dedup failure") (fun s => Except.ok s) "dedup failure").2.1
      c3_batch rfl rfl,
    (pipeline_failure_visible_states c3_prerun (fun _ => Except.ok c3_batch)
      (fun s => Except.ok s) (fun _ => Except.error "metrics failure") "metrics failure").2.2
      c3_batch c3_batch rfl rfl rfl⟩

/-- Three insights with identical titles, exhibiting the deduplication
slip of C4: priority scores 10, 20 and 5, so the first merge keeps
insight 1 and discards insight 0 — yet the inner loop keeps using
insight 0 as a merge target afterwards. -/
def c4_insights : List InsightRow :=
  [⟨0, "export slow", 10⟩, ⟨1, "export slow", 20⟩, ⟨2, "export slow", 5⟩]

/-- Feedback links of the C4 input: feedback 100 on insight 0 and
feedback 101 on insight 2. -/
def c4_links : List LinkRow :=
  [⟨0, 100, 80, 0⟩, ⟨2, 101, 80, 0⟩]

/-- C4.  Evaluating `deduplicate_insights` on the three-insight input
shows the claimed invariant fails: all three titles are identical
(similarity `1 > 0.85`), insights 0 and 2 are deleted and only insight 1
survives, yet the link of feedback 101 ends up attached to DELETED
insight 0 — an orphaned link that points to no surviving insight.  (The
inner loop merged insight 2 into insight 0 after insight 0 had already
been marked for deletion.) -/
theorem dedup_orphan_link_example :
    title_similarity "export slow" "export slow" = 1 ∧
    deduplicate_insights c4_insights c4_links =
      ([⟨1, "export slow", 20⟩], [⟨1, 100, 80, 0⟩, ⟨0, 101, 80, 0⟩]) ∧
    (∃ l ∈ (deduplicate_insights c4_insights c4_links).2,
      ∀ ins ∈ (deduplicate_insights c4_insights c4_links).1, l.insight_id ≠ ins.id) := by
  refine ⟨?_, by decide, ?_⟩
  · have hd : str_lower "export slow" = "export slow" := by decide
    have hM : matchingTotal "export slow".data "export slow".data
        ("export slow".data.length + "export slow".data.length + 1)
        0 "export slow".data.length 0 "export slow".data.length = 11 := by decide
    have hlen : "export slow".data.length = 11 := by decide
    unfold title_similarity seqRatioVal
    rw [hd]
    simp only [hM, hlen]
    norm_num
    rw [show matchingTotal ['e', 'x', 'p', 'o', 'r', 't', ' ', 's', 'l', 'o', 'w']
        ['e', 'x', 'p', 'o', 'r', 't', ' ', 's', 'l', 'o', 'w'] 23 0 11 0 11 = 11 from by decide]
    norm_num
  · exact ⟨⟨0, 101, 80, 0⟩, by decide, by decide⟩

/-- For thresholds of at least two, `affected` (which substitutes `1` for
an empty customer set) crosses the threshold exactly when the distinct
customer count does. -/
lemma affected_count_threshold (feedback_items : List FeedbackRow) (k : ℕ) (hk : 2 ≤ k) :
    (k ≤ affected_count feedback_items ↔
      k ≤ (unique_customer_ids feedback_items).card) := by
  unfold affected_count
  split_ifs with h
  · rw [h]
    simp only [Finset.card_empty]
    omega
  · exact Iff.rfl

/-- C10.  The deterministic fallback path never assigns severity
"critical"; it assigns "high" exactly when the distinct customer count is
at least 5, the feedback count at least 10, or the lowercased theme label
contains an enterprise keyword; otherwise "medium" exactly when the
distinct customer count is at least 3 or the feedback count at least 5;
otherwise "low". -/
theorem simple_insight_severity_characterization
    (feedback_items : List FeedbackRow) (theme_label : String) :
    simple_insight_severity feedback_items theme_label ≠ "critical" ∧
    (simple_insight_severity feedback_items theme_label = "high" ↔
      (5 ≤ (unique_customer_ids feedback_items).card ∨ 10 ≤ feedback_items.length ∨
        has_enterprise_impact theme_label = true)) ∧
    (simple_insight_severity feedback_items theme_label = "medium" ↔
      (¬(5 ≤ (unique_customer_ids feedback_items).card ∨ 10 ≤ feedback_items.length ∨
          has_enterprise_impact theme_label = true) ∧
        (3 ≤ (unique_customer_ids feedback_items).card ∨ 5 ≤ feedback_items.length))) ∧
    (simple_insight_severity feedback_items theme_label = "low" ↔
      (¬(5 ≤ (unique_customer_ids feedback_items).card ∨ 10 ≤ feedback_items.length ∨
          has_enterprise_impact theme_label = true) ∧
        ¬(3 ≤ (unique_customer_ids feedback_items).card ∨ 5 ≤ feedback_items.length))) := by
  have h5 := affected_count_threshold feedback_items 5 (by norm_num)
  have h3 := affected_count_threshold feedback_items 3 (by norm_num)
  unfold simple_insight_severity
  split_ifs with hA hB
  · refine ⟨by decide, ?_, ?_, ?_⟩
    · simp only [true_iff]
      tauto
    · constructor
      · intro hcontr
        exact absurd hcontr (by decide)
      · intro hcontr
        exact absurd (by tauto : 5 ≤ (unique_customer_ids feedback_items).card ∨
          10 ≤ feedback_items.length ∨ has_enterprise_impact theme_label = true)
          hcontr.1
    · constructor
      · intro hcontr
        exact absurd hcontr (by decide)
      · intro hcontr
        exact absurd (by tauto : 5 ≤ (unique_customer_ids feedback_items).card ∨
          10 ≤ feedback_items.length ∨ has_enterprise_impact theme_label = true)
          hcontr.1
  · refine ⟨by decide, ?_, ?_, ?_⟩
    · constructor
      · intro hcontr
        exact absurd hcontr (by decide)
      · intro hcontr
        exact absurd hcontr (by tauto)
    · simp only [true_iff]
      exact ⟨by tauto, by tauto⟩
    · constructor
      · intro hcontr
        exact absurd hcontr (by decide)
      · intro hcontr
        exact absurd (by tauto : 3 ≤ (unique_customer_ids feedback_items).card ∨
          5 ≤ feedback_items.length) hcontr.2
  · refine ⟨by decide, ?_, ?_, ?_⟩
    · constructor
      · intro hcontr
        exact absurd hcontr (by decide)
      · intro hcontr
        exact absurd hcontr (by tauto)
    · constructor
      · intro hcontr
        exact absurd hcontr (by decide)
      · intro hcontr
        exact absurd hcontr.2 (by tauto)
    · simp only [true_iff]
      exact ⟨by tauto, by tauto⟩
